import Mathlib

/-!
Verification of the South Park view-counter server (`server.js`).

The development shallowly embeds the counter persistence layer
(`readStore` / `writeStore` / `getAndIncrementCounter` / `peekCounter`),
the request handler's display-value resolution, the asset-encoding cache
(`imageToDataUri`), the order parser (`parseOrder`) and the layout
geometry of `renderSouthParkCounter` (display string, per-glyph scales,
canvas width and height, cyclic glyph assignment), and proves the
specified properties about them.
-/

namespace SouthPark

/-!
## Counter persistence layer

A store snapshot is the JSON object held in `counters.json` (or under the
single Redis key `counters`): a finite map from names to JSON values.  We
embed it as a function from names to optional stored values.  A stored
JSON value is either a finite number (JS numbers that pass
`Number.isFinite`; embedded as a rational), a non-finite number
(`NaN` / `Infinity`, which has `typeof === 'number'` but fails
`Number.isFinite`), or any non-number JSON value.
-/

/-- A JSON value found under a counter name in the store snapshot. -/
inductive JVal where
| num (q : ℚ)
| nonfinite
| other
deriving DecidableEq

/-- A store snapshot: the object read from / written to the backend. -/
abbrev Store := String → Option JVal

/-- The empty store `{}`. -/
def emptyStore : Store := fun _ => none

/-- JS property assignment `store[name] = v` on a plain object parsed
from JSON.  For every ordinary name this creates or updates the own
property.  The name "__proto__" is special (ECMAScript Annex B.2.2.1):
the assignment invokes the inherited `Object.prototype.__proto__`
accessor, whose setter silently ignores primitive values — and every
value this program assigns is a number, hence a primitive — so no own
property is created and the snapshot is unchanged.  (Reading
`store["__proto__"]` yields the inherited prototype object, which is
not a number, so `currentValue`'s `none` case covers it.) -/
def setVal (store : Store) (name : String) (v : JVal) : Store :=
  if name = "__proto__" then store
  else fun m => if m = name then some v else store m

/-- What the backend yields on a read: either a valid object, or one of
the failure modes that `readStore` catches (missing `counters.json`,
`JSON.parse` throwing on a malformed document, a parsed value that is not
an object, or the remote Redis service being unreachable). -/
inductive ReadOutcome where
| ok (store : Store)
| missingFile
| malformed
| nonObject
| unreachable

/-- Whether the backend write succeeds or throws. -/
inductive WriteOutcome where
| success
| failure
deriving DecidableEq

/-- `readStore` from `server.js`: every failure or invalid-content path
is caught and returns the empty object `{}`. -/
def readStore : ReadOutcome → Store
| ReadOutcome.ok store => store
| ReadOutcome.missingFile => emptyStore
| ReadOutcome.malformed => emptyStore
| ReadOutcome.nonObject => emptyStore
| ReadOutcome.unreachable => emptyStore

/-- `writeStore` from `server.js`: a failed write is logged and
swallowed, so the persisted snapshot is unchanged (`none`); a successful
write persists the given snapshot. -/
def writeStore : WriteOutcome → Store → Option Store
| WriteOutcome.success, store => some store
| WriteOutcome.failure, _ => none

/-- The expression
`typeof store[name] === 'number' && Number.isFinite(store[name]) ? store[name] : 0`:
a missing or non-finite or non-number stored value is treated as 0. -/
def currentValue (store : Store) (name : String) : ℚ :=
  match store name with
  | some (JVal.num q) => q
  | _ => 0

/-- `getAndIncrementCounter` from `server.js`: read the snapshot, treat a
missing/non-finite value as 0, write back the snapshot with `current + 1`
under `name`, and return the new value.  The returned pair is the value
handed to the caller and the snapshot the backend persisted (if the
write succeeded). -/
def getAndIncrementCounter (r : ReadOutcome) (w : WriteOutcome) (name : String) :
    ℚ × Option Store :=
  let store := readStore r
  let current := currentValue store name
  let nextValue := current + 1
  let store1 := setVal store name (JVal.num nextValue)
  (nextValue, writeStore w store1)

/-- `peekCounter` from `server.js`: read the snapshot and return the
current value without side effects. -/
def peekCounter (r : ReadOutcome) (name : String) : ℚ :=
  currentValue (readStore r) name

/-- N sequential calls of `getAndIncrementCounter` for the same name,
with every backend read returning the previous write's snapshot and
every backend write succeeding; collects the returned values in order. -/
def runIncrements (name : String) : Nat → Store → List ℚ
| 0, _ => []
| Nat.succ n, st =>
  let r := getAndIncrementCounter (ReadOutcome.ok st) WriteOutcome.success name
  r.1 :: runIncrements name n (r.2.getD emptyStore)

/-!
## Request handler display-value resolution (route `/@:name`)

`if (num && num > 0) { value = num } else { value = inc === 1 ?
await getAndIncrementCounter(name) : await peekCounter(name) }`.
The `CounterEffect` component records which branch ran.
-/

/-- Which counter operation the handler performed for a request. -/
inductive CounterEffect where
| incremented
| peeked
| untouched
deriving DecidableEq

/-- The `/@:name` handler's value resolution and its effect on the
persisted store (with backend reads/writes succeeding): `num > 0`
overrides the display value, otherwise `inc === 1` increments and any
other `inc` peeks.  Returns the display value, the resulting persisted
snapshot, and which counter operation ran. -/
def resolveValue (num inc : ℚ) (name : String) (store : Store) :
    ℚ × Store × CounterEffect :=
  if 0 < num then (num, store, CounterEffect.untouched)
  else if inc = 1 then
    let r := getAndIncrementCounter (ReadOutcome.ok store) WriteOutcome.success name
    (r.1, r.2.getD emptyStore, CounterEffect.incremented)
  else (peekCounter (ReadOutcome.ok store) name, store, CounterEffect.peeked)

/-- A sample snapshot with one counter `b = 5`. -/
def sampleStore : Store :=
  fun m => if m = "b" then some (JVal.num 5) else none

/-!
### Store lemmas
-/

theorem currentValue_setVal_self {store : Store} {name : String} {q : ℚ}
    (h : name ≠ "__proto__") :
    currentValue (setVal store name (JVal.num q)) name = q := by
  simp [currentValue, setVal, h]

theorem runIncrements_eq (name : String) (h : name ≠ "__proto__") :
    ∀ (n : Nat) (st : Store),
      runIncrements name n st
        = (List.range n).map (fun i : Nat => currentValue st name + (i : ℚ) + 1) := by
  intro n
  induction n with
  | zero => intro st; simp [runIncrements]
  | succ n ih =>
    intro st
    rw [List.range_succ_eq_map]
    simp only [runIncrements, getAndIncrementCounter, writeStore, readStore,
      Option.getD_some, List.map_cons, List.map_map]
    congr 1
    · push_cast; ring
    · rw [ih]
      apply List.map_congr_left
      intro i _
      simp only [Function.comp_apply, currentValue_setVal_self h]
      push_cast
      ring

/-!
### Claim theorems for the counter layer
-/

/-- Counterexample to claim C3: for the valid counter name "__proto__"
the JS assignment `store[name] = nextValue` hits the inherited
`Object.prototype.__proto__` accessor and is a silent no-op for the
numeric value, so starting from the empty store two sequential
`getAndIncrementCounter` calls return 1, 1 — not 1, 2. -/
theorem claim3_sequential_increments_counterexample :
    runIncrements "__proto__" 2 emptyStore = [1, 1]
    ∧ runIncrements "__proto__" 2 emptyStore
        ≠ (List.range 2).map (fun i : Nat => (i : ℚ) + 1) := by
  have hstep : getAndIncrementCounter (ReadOutcome.ok emptyStore) WriteOutcome.success
      "__proto__" = (1, some emptyStore) := by
    simp [getAndIncrementCounter, readStore, writeStore, setVal, currentValue, emptyStore]
  have h2 : runIncrements "__proto__" 2 emptyStore = [1, 1] := by
    show runIncrements "__proto__" (Nat.succ (Nat.succ Nat.zero)) emptyStore = [1, 1]
    simp only [runIncrements, hstep, Option.getD_some]
  have hr : (List.range 2).map (fun i : Nat => (i : ℚ) + 1) = [1, 2] := by
    rw [show List.range 2 = [0, 1] from rfl]
    norm_num
  refine ⟨h2, ?_⟩
  rw [h2, hr]
  norm_num

/-- Claim C3 as amended: starting from the empty store, with sequential
access and every backend write succeeding, N calls of
`getAndIncrementCounter` for the same name return the values
1, 2, ..., N in order — for every name other than "__proto__", whose
write-back is silently dropped so each call returns 1. -/
theorem claim3_sequential_increments (name : String) (N : Nat)
    (h : name ≠ "__proto__") :
    runIncrements name N emptyStore = (List.range N).map (fun i : Nat => (i : ℚ) + 1) := by
  rw [runIncrements_eq name h]
  apply List.map_congr_left
  intro i _
  simp [currentValue, emptyStore]

/-- Witness for the amended C3 at name "x", N = 3. -/
theorem claim3_sequential_increments_witness :
    runIncrements "x" 3 emptyStore = (List.range 3).map (fun i : Nat => (i : ℚ) + 1) :=
  claim3_sequential_increments "x" 3 (by decide)

/-- Claim C4: for every backend state (including a missing file,
malformed JSON, non-object content, and an unreachable remote service)
the counter operations are total — they always return a value to the
caller.  A failed or invalid read is treated as the empty store `{}` so
counting starts from 0, and a failed write is swallowed while the
already-computed value is still returned (the returned value does not
depend on the write outcome). -/
theorem claim4_counter_error_handling (r : ReadOutcome) (w : WriteOutcome) (name : String) :
    (getAndIncrementCounter r w name).1 = currentValue (readStore r) name + 1
    ∧ peekCounter r name = currentValue (readStore r) name
    ∧ (getAndIncrementCounter r WriteOutcome.failure name).1
        = (getAndIncrementCounter r WriteOutcome.success name).1
    ∧ readStore ReadOutcome.missingFile = emptyStore
    ∧ readStore ReadOutcome.malformed = emptyStore
    ∧ readStore ReadOutcome.nonObject = emptyStore
    ∧ readStore ReadOutcome.unreachable = emptyStore
    ∧ currentValue emptyStore name = 0 := by
  refine ⟨rfl, rfl, rfl, rfl, rfl, rfl, rfl, ?_⟩
  simp [currentValue, emptyStore]

/-- Claim C10: the snapshot written back by `getAndIncrementCounter`
differs from the snapshot that was read only at the incremented name:
every other name maps to exactly the same stored value (in particular,
no other entry is added or removed). -/
theorem claim10_increment_frame (store : Store) (name m : String) (h : m ≠ name) :
    ((getAndIncrementCounter (ReadOutcome.ok store) WriteOutcome.success name).2.getD
        emptyStore) m = store m := by
  by_cases hp : name = "__proto__" <;>
    simp [getAndIncrementCounter, writeStore, readStore, setVal, hp, h]

/-- Witness for C10 at a concrete snapshot: incrementing `a` leaves the
entry for `b` unchanged. -/
theorem claim10_increment_frame_witness :
    ((getAndIncrementCounter (ReadOutcome.ok sampleStore) WriteOutcome.success "a").2.getD
        emptyStore) "b" = sampleStore "b" :=
  claim10_increment_frame sampleStore "a" "b" (by decide)

/-- Counterexample to claim C1: with override `num = 5` and `inc = 1` on
the empty store, the display value is 5 but the counter for the
requested name is NOT incremented — no counter operation runs at all and
the stored value stays 0 rather than becoming 1. -/
theorem claim1_override_counterexample :
    (resolveValue 5 1 "x" emptyStore).1 = 5
    ∧ (resolveValue 5 1 "x" emptyStore).2.2 = CounterEffect.untouched
    ∧ currentValue (resolveValue 5 1 "x" emptyStore).2.1 "x" = 0
    ∧ ¬ currentValue (resolveValue 5 1 "x" emptyStore).2.1 "x" = 1 := by
  refine ⟨?_, ?_, ?_, ?_⟩ <;>
    simp [resolveValue, currentValue, emptyStore]

/-- Claim C1 as amended: when the request carries an explicit display
override `num > 0`, the rendered value is `num` and the persisted
counter is left untouched — it is neither incremented nor peeked,
regardless of `inc`. -/
theorem claim1_override_amended (num inc : ℚ) (name : String) (store : Store)
    (h : 0 < num) :
    (resolveValue num inc name store).1 = num
    ∧ (resolveValue num inc name store).2.1 = store
    ∧ (resolveValue num inc name store).2.2 = CounterEffect.untouched := by
  simp [resolveValue, h]

/-- Witness for the amended C1 at `num = 5`, `inc = 1`. -/
theorem claim1_override_amended_witness :
    (resolveValue 5 1 "x" emptyStore).1 = 5
    ∧ (resolveValue 5 1 "x" emptyStore).2.1 = emptyStore
    ∧ (resolveValue 5 1 "x" emptyStore).2.2 = CounterEffect.untouched :=
  claim1_override_amended 5 1 "x" emptyStore (by norm_num)

/-!
## Asset-encoding cache (`imageToDataUri` and `imageDataUriCache`)

The external collaborators are modelled at their boundary: `load` stands
for the composite loader (`sharp(...).toBuffer()` with the
`fs.readFileSync` fallback), returning `none` when every load attempt
throws, and `base64` stands for `Buffer.toString('base64')`.  Both are
deterministic functions of the path / bytes, matching the collaborator
contract.  The `loads` field counts how many times the loader ran during
the call (0 on a cache hit, 1 otherwise).
-/

/-- The external loader and encoder used by `imageToDataUri`. -/
structure AssetEnv where
  load : String → Option (List Nat)
  base64 : List Nat → String

/-- The memo table `imageDataUriCache`. -/
abbrev Cache := String → Option String

/-- The empty memo table. -/
def emptyCache : Cache := fun _ => none

/-- `imagePath.endsWith('.png') ? 'image/png' : 'image/jpeg'`. -/
def mimeType (imagePath : String) : String :=
  if imagePath.endsWith ".png" then "image/png" else "image/jpeg"

/-- The result of one `imageToDataUri` call: the returned string, the
memo table afterwards, and how many times the loader was invoked. -/
structure AssetResult where
  result : String
  cache : Cache
  loads : Nat
deriving Inhabited

/-- `imageToDataUri` from `server.js`: return the memoized entry when
present; otherwise load the bytes, base64-encode them into a
`data:<mime>;base64,<payload>` URI, memoize and return it.  When every
load attempt throws, the outer catch returns the raw path — without
storing anything in the memo table. -/
def imageToDataUri (env : AssetEnv) (cache : Cache) (imagePath : String) : AssetResult :=
  match cache imagePath with
  | some cached => ⟨cached, cache, 0⟩
  | none =>
    match env.load imagePath with
    | some imageBuffer =>
      let dataUri := "data:" ++ mimeType imagePath ++ ";base64," ++ env.base64 imageBuffer
      ⟨dataUri, fun p => if p = imagePath then some dataUri else cache p, 1⟩
    | none => ⟨imagePath, cache, 1⟩

/-- An environment whose loader always throws (e.g. the asset file is
missing), as in the outer catch of `imageToDataUri`. -/
def failingAssetEnv : AssetEnv :=
  ⟨fun _ => none, fun _ => ""⟩

/-- An environment whose loader succeeds on every path. -/
def okAssetEnv : AssetEnv :=
  ⟨fun _ => some [], fun _ => "AA"⟩

/-- Counterexample to claim C5: for a path whose load fails, nothing is
memoized, so calling `imageToDataUri` twice invokes the loader twice —
not at most once per distinct path.  (Both calls still return the same
string, the raw path.) -/
theorem claim5_memoization_counterexample :
    (imageToDataUri failingAssetEnv
        (imageToDataUri failingAssetEnv emptyCache "/assets/stan.png").cache
        "/assets/stan.png").loads
      + (imageToDataUri failingAssetEnv emptyCache "/assets/stan.png").loads = 2
    ∧ ¬ ((imageToDataUri failingAssetEnv
          (imageToDataUri failingAssetEnv emptyCache "/assets/stan.png").cache
          "/assets/stan.png").loads
        + (imageToDataUri failingAssetEnv emptyCache "/assets/stan.png").loads ≤ 1) := by
  refine ⟨?_, ?_⟩ <;>
    simp [imageToDataUri, failingAssetEnv, emptyCache]

/-- Claim C5 as amended: for every asset path two successive
`imageToDataUri` calls return bit-identical strings (also when the load
fails, since the failure path deterministically returns the raw path),
and when the load for that path succeeds the loader runs at most once
across both calls (the first call memoizes, the second is a pure cache
hit); a failing load is not memoized and is re-attempted on each call. -/
theorem claim5_memoization_amended (env : AssetEnv) (cache : Cache) (imagePath : String) :
    (imageToDataUri env (imageToDataUri env cache imagePath).cache imagePath).result
      = (imageToDataUri env cache imagePath).result
    ∧ ((env.load imagePath).isSome →
        (imageToDataUri env (imageToDataUri env cache imagePath).cache imagePath).loads = 0
        ∧ (imageToDataUri env cache imagePath).loads
            + (imageToDataUri env (imageToDataUri env cache imagePath).cache imagePath).loads
            ≤ 1) := by
  rcases hc : cache imagePath with _ | cached
  · rcases hl : env.load imagePath with _ | buf
    · simp [imageToDataUri, hc, hl]
    · simp [imageToDataUri, hc, hl]
  · simp [imageToDataUri, hc]

/-- Witness for the amended C5: a successful load at a concrete path and
empty cache. -/
theorem claim5_memoization_amended_witness :
    (imageToDataUri okAssetEnv (imageToDataUri okAssetEnv emptyCache "/assets/stan.png").cache
        "/assets/stan.png").result
      = (imageToDataUri okAssetEnv emptyCache "/assets/stan.png").result
    ∧ ((imageToDataUri okAssetEnv
          (imageToDataUri okAssetEnv emptyCache "/assets/stan.png").cache
          "/assets/stan.png").loads = 0
        ∧ (imageToDataUri okAssetEnv emptyCache "/assets/stan.png").loads
            + (imageToDataUri okAssetEnv
                (imageToDataUri okAssetEnv emptyCache "/assets/stan.png").cache
                "/assets/stan.png").loads
            ≤ 1) :=
  ⟨(claim5_memoization_amended okAssetEnv emptyCache "/assets/stan.png").1,
   (claim5_memoization_amended okAssetEnv emptyCache "/assets/stan.png").2 (by decide)⟩

/-!
## Order parsing and glyph-sequence fallback

`parseOrder` splits the `order` query parameter on commas, trims and
lowercases each key, drops empty keys, collapses inner whitespace runs
to `-` (the regex `replace(/\s+/g, '-')`), resolves keys through
`characterKeyToPath`, de-duplicates, and returns `null` when nothing
resolves.  Both the route handler and `renderSouthParkCounter` then fall
back to the default glyph sequence when the order is null or empty.
-/

/-- ASCII whitespace, as matched by the regex class `\s` used in
`parseOrder` (which also matches form feed and vertical tab; the
Unicode whitespace code points are omitted here — a key containing one
fails the `characterKeyToPath` lookup either way). -/
def isJsWhitespace (c : Char) : Bool :=
  c = ' ' || c = '\t' || c = '\n' || c = '\r' || c = '\x0b' || c = '\x0c'

/-- `rawKey.replace(/\s+/g, '-')` over the character list: each maximal
run of whitespace becomes a single `-`.  `prevWs` records whether the
previous character was part of a whitespace run. -/
def collapseWsAux (prevWs : Bool) : List Char → List Char
| [] => []
| c :: rest =>
  if isJsWhitespace c then
    (if prevWs then [] else ['-']) ++ collapseWsAux true rest
  else c :: collapseWsAux false rest

/-- `rawKey.replace(/\s+/g, '-')`. -/
def collapseWs (s : String) : String :=
  String.mk (collapseWsAux false s.data)

/-- The `characterKeyToPath` lookup table from `server.js`. -/
def characterKeyToPath (key : String) : Option String :=
  if key = "stan" then some "/assets/stan.png"
  else if key = "kyle" then some "/assets/kyle.png"
  else if key = "mr-mackey" then some "/assets/mr mackey.png"
  else if key = "kenny" then some "/assets/kenny.png"
  else if key = "cartman" then some "/assets/cartman.png"
  else if key = "timmy" then some "/assets/timmy.png"
  else if key = "wendy" then some "/assets/wendy.png"
  else none

/-- The resolution loop of `parseOrder`: look every key up in
`characterKeyToPath` and keep the first occurrence of each resolved
path (`seen` is the set of already-resolved paths). -/
def resolveKeys (seen : List String) : List String → List String
| [] => []
| rawKey :: rest =>
  match characterKeyToPath (collapseWs rawKey) with
  | some p => if p ∈ seen then resolveKeys seen rest else p :: resolveKeys (p :: seen) rest
  | none => resolveKeys seen rest

/-- The `resolved` list of `parseOrder`: split on commas, trim and
lowercase, drop empty keys, then resolve. -/
def resolvedOrder (orderStr : String) : List String :=
  resolveKeys []
    (((orderStr.splitOn ",").map (fun k => k.trim.toLower)).filter (fun k => k ≠ ""))

/-- `parseOrder` from `server.js`: `null` for an empty order string and
when no key resolves, otherwise the non-empty resolved list. -/
def parseOrder (orderStr : String) : Option (List String) :=
  if orderStr = "" then none
  else if resolvedOrder orderStr = [] then none
  else some (resolvedOrder orderStr)

/-- The `defaultCharacterImages` list from `renderSouthParkCounter`
(also inlined in the route handler). -/
def defaultCharacterImages : List String :=
  ["/assets/stan.png", "/assets/kyle.png", "/assets/mr mackey.png", "/assets/kenny.png",
   "/assets/cartman.png", "/assets/timmy.png", "/assets/wendy.png"]

/-- The route handler's
`customOrder && customOrder.length ? customOrder : [...defaults]`. -/
def imagesToLoad (customOrder : Option (List String)) : List String :=
  match customOrder with
  | some l => if l.length ≠ 0 then l else defaultCharacterImages
  | none => defaultCharacterImages

/-- The renderer's
`characterOrder && characterOrder.length ? characterOrder : defaultCharacterImages`. -/
def resolveImages (characterOrder : List String) : List String :=
  if characterOrder.length ≠ 0 then characterOrder else defaultCharacterImages

theorem parseOrder_ne_some_nil {s : String} {l : List String}
    (h : parseOrder s = some l) : l ≠ [] := by
  unfold parseOrder at h
  split_ifs at h with h1 h2
  intro hl
  exact h2 ((Option.some_inj.mp h).trans hl)

/-- Claim C6: for every order string, the glyph sequence the renderer
actually uses — the parsed order after filtering, with the handler's and
renderer's fallbacks to the default sequence — is non-empty, so glyph
selection by `idx % length` never takes a modulus by zero and always
yields an index inside the sequence. -/
theorem claim6_order_fallback_nonempty (orderStr : String) :
    0 < (resolveImages (imagesToLoad (parseOrder orderStr))).length
    ∧ ∀ idx : Nat,
        idx % (resolveImages (imagesToLoad (parseOrder orderStr))).length
          < (resolveImages (imagesToLoad (parseOrder orderStr))).length := by
  have hpos : 0 < (resolveImages (imagesToLoad (parseOrder orderStr))).length := by
    rcases hp : parseOrder orderStr with _ | l
    · simp [imagesToLoad, resolveImages, defaultCharacterImages]
    · have hl : l ≠ [] := parseOrder_ne_some_nil hp
      have hlen : l.length ≠ 0 := by simpa using hl
      simp [imagesToLoad, resolveImages, hlen]
      omega
  exact ⟨hpos, fun idx => Nat.mod_lt idx hpos⟩

/-!
## Display string (`String(value).padStart(padding, '0')`)
-/

/-- JavaScript `s.padStart(targetLength, padChar)`: left-pad with
`padChar` up to `targetLength`; a string already at least that long is
returned unchanged. -/
def padStart (s : String) (targetLength : Nat) (padChar : Char) : String :=
  if targetLength ≤ s.length then s
  else String.mk (List.replicate (targetLength - s.length) padChar) ++ s

/-- The display string of `renderSouthParkCounter`:
`${prefix || ''}${String(value).padStart(padding, '0')}`. -/
def displayString (prefixStr : String) (value : ℤ) (padding : Nat) : String :=
  prefixStr ++ padStart (toString value) padding '0'

theorem padStart_eq (s : String) (n : Nat) (c : Char) :
    padStart s n c = String.mk (List.replicate (n - s.length) c) ++ s := by
  unfold padStart
  split_ifs with h
  · rw [Nat.sub_eq_zero_of_le h]
    cases s with
    | mk data => rfl
  · rfl

/-- Claim C7: the display string is the prefix followed by the decimal
rendering of the value left-padded with `'0'` to at least `padding`
digits, and a value wider than `padding` is rendered in full (the
decimal rendering is always a suffix, with `padding - digits` zeros —
zero of them when the value already has at least `padding` digits); in
particular value 5 with padding 7 gives "0000005", value 12345678 with
padding 3 gives "12345678", and prefix "SP-" with value 42 and padding 4
gives "SP-0042". -/
theorem claim7_zero_padding (value : ℤ) (padding : Nat) (prefixStr : String)
    (h1 : 1 ≤ padding) (h2 : padding ≤ 16) :
    displayString prefixStr value padding
      = prefixStr
        ++ String.mk (List.replicate (padding - (toString value).length) '0')
        ++ toString value
    ∧ displayString "" 5 7 = "0000005"
    ∧ displayString "" 12345678 3 = "12345678"
    ∧ displayString "SP-" 42 4 = "SP-0042" := by
  refine ⟨?_, by decide, by decide, by decide⟩
  rw [displayString, padStart_eq, String.append_assoc]

/-- Witness for C7 at value 5, padding 7, empty prefix. -/
theorem claim7_zero_padding_witness :
    displayString "" 5 7
      = "" ++ String.mk (List.replicate (7 - (toString (5 : ℤ)).length) '0')
        ++ toString (5 : ℤ)
    ∧ displayString "" 5 7 = "0000005"
    ∧ displayString "" 12345678 3 = "12345678"
    ∧ displayString "SP-" 42 4 = "SP-0042" :=
  claim7_zero_padding 5 7 "" (by decide) (by decide)

/-!
## Layout geometry of `renderSouthParkCounter`

The per-glyph metadata (`characterScales` with the `|| 1.0` default),
the canvas width accumulation, the canvas height accumulation (note its
initial value `digitHeight`), and the cyclic glyph assignment
`characterImages[idx % characterImages.length]`.
-/

/-- `const digitWidth = 140`. -/
def digitWidth : ℚ := 140

/-- `const digitHeight = 112`. -/
def digitHeight : ℚ := 112

/-- `const digitGap = 0`. -/
def digitGap : ℚ := 0

/-- `const paddingX = 0`. -/
def paddingX : ℚ := 0

/-- The `characterScales` lookup, including the `|| 1.0` default for
paths outside the table. -/
def characterScales (imgHref : String) : ℚ :=
  if imgHref = "/assets/cartman.png" then 0.6
  else if imgHref = "/assets/mr mackey.png" then 0.7
  else if imgHref = "/assets/stan.png" then 0.6
  else if imgHref = "/assets/kenny.png" then 0.6
  else if imgHref = "/assets/timmy.png" then 0.8
  else if imgHref = "/assets/wendy.png" then 0.6
  else if imgHref = "/assets/kyle.png" then 0.7
  else 1

/-- `characterImages[idx % characterImages.length]`: the glyph assigned
to character index `idx`. -/
def glyphAt (images : List String) (idx : Nat) : String :=
  images.getD (idx % images.length) ""

/-- The `totalWidth` accumulation of `renderSouthParkCounter`: starting
from `paddingX * 2`, each character adds its scaled glyph box width, and
every character except the last adds `digitGap`. -/
def totalWidth (images : List String) (displayStr : List Char) : ℚ :=
  (List.range displayStr.length).foldl
    (fun acc idx =>
      if idx < displayStr.length - 1 then
        acc + digitWidth * characterScales (glyphAt images idx) + digitGap
      else acc + digitWidth * characterScales (glyphAt images idx))
    (paddingX * 2)

/-- The `maxHeight` accumulation of `renderSouthParkCounter` (the
canvas height `totalHeight`): starting from `digitHeight`, take the max
with each scaled glyph box height. -/
def maxHeight (images : List String) (displayStr : List Char) : ℚ :=
  (List.range displayStr.length).foldl
    (fun mh idx => max mh (digitHeight * characterScales (glyphAt images idx)))
    digitHeight

/-- The canvas height as the spec describes it: the maximum glyph box
height across the sequence (0 for an empty sequence), where a glyph box
height is the intrinsic height times the per-glyph render scale. -/
def specCanvasHeight (images : List String) (displayStr : List Char) : ℚ :=
  ((List.range displayStr.length).map
    (fun idx => digitHeight * characterScales (glyphAt images idx))).foldl max 0

/-- The glyph sequence assigned to the characters of the display string,
in order. -/
def assignedGlyphs (images : List String) (displayStr : List Char) : List String :=
  (List.range displayStr.length).map (glyphAt images)

theorem characterScales_nonneg (imgHref : String) : 0 ≤ characterScales imgHref := by
  unfold characterScales
  split_ifs <;> norm_num

theorem foldl_add_eq (f : Nat → ℚ) :
    ∀ (l : List Nat) (a : ℚ), l.foldl (fun acc i => acc + f i) a = a + (l.map f).sum := by
  intro l
  induction l with
  | nil => intro a; simp
  | cons x xs ih => intro a; simp [ih, add_assoc]

theorem foldl_fmax_shift (f : Nat → ℚ) (l : List Nat) :
    ∀ a b : ℚ,
      l.foldl (fun x i => max x (f i)) (max a b)
        = max a (l.foldl (fun x i => max x (f i)) b) := by
  induction l with
  | nil => intro a b; rfl
  | cons x xs ih =>
    intro a b
    simp only [List.foldl_cons]
    rw [max_assoc]
    exact ih a (max b (f x))

theorem foldl_fmax_zero (f : Nat → ℚ) (l : List Nat) (a : ℚ) (ha : 0 ≤ a) :
    l.foldl (fun x i => max x (f i)) a = max a (l.foldl (fun x i => max x (f i)) 0) := by
  have h : max a 0 = a := max_eq_left ha
  rw [← h, foldl_fmax_shift]
  rw [h]

theorem totalWidth_eq (images : List String) (displayStr : List Char) :
    totalWidth images displayStr
      = paddingX * 2
        + ((List.range displayStr.length).map
            (fun idx => digitWidth * characterScales (glyphAt images idx))).sum := by
  have hstep : (fun (acc : ℚ) (idx : Nat) =>
      if idx < displayStr.length - 1 then
        acc + digitWidth * characterScales (glyphAt images idx) + digitGap
      else acc + digitWidth * characterScales (glyphAt images idx))
      = fun (acc : ℚ) (idx : Nat) =>
          acc + digitWidth * characterScales (glyphAt images idx) := by
    funext acc idx
    split_ifs <;> simp [digitGap]
  unfold totalWidth
  rw [hstep, foldl_add_eq]

/-- Counterexample to claim C2: with the glyph order consisting of the
single cartman glyph (render scale 0.6) and the one-character display
string "0", the computed canvas height is the unscaled intrinsic height
112, not the tallest scaled box height 67.2, because the height
accumulator starts at `digitHeight`. -/
theorem claim2_canvas_height_counterexample :
    maxHeight ["/assets/cartman.png"] ['0'] = 112
    ∧ specCanvasHeight ["/assets/cartman.png"] ['0'] = 336 / 5
    ∧ maxHeight ["/assets/cartman.png"] ['0']
        ≠ specCanvasHeight ["/assets/cartman.png"] ['0'] := by
  have hscale : characterScales (glyphAt ["/assets/cartman.png"] 0) = 0.6 := rfl
  have hmax : maxHeight ["/assets/cartman.png"] ['0']
      = max digitHeight (digitHeight * characterScales (glyphAt ["/assets/cartman.png"] 0)) := by
    simp only [maxHeight, List.length_cons, List.length_nil]
    rw [show List.range 1 = [0] from rfl]
    simp
  have hspec : specCanvasHeight ["/assets/cartman.png"] ['0']
      = max 0 (digitHeight * characterScales (glyphAt ["/assets/cartman.png"] 0)) := by
    simp only [specCanvasHeight, List.length_cons, List.length_nil]
    rw [show List.range 1 = [0] from rfl]
    simp
  rw [hscale] at hmax hspec
  have hmax2 : maxHeight ["/assets/cartman.png"] ['0'] = 112 := by
    rw [hmax, max_eq_left (by norm_num [digitHeight])]
    norm_num [digitHeight]
  have hspec2 : specCanvasHeight ["/assets/cartman.png"] ['0'] = 336 / 5 := by
    rw [hspec, max_eq_right (by norm_num [digitHeight])]
    norm_num [digitHeight]
  refine ⟨hmax2, hspec2, ?_⟩
  rw [hmax2, hspec2]
  norm_num

/-- Claim C2 as amended: the computed canvas height is the maximum of
the intrinsic glyph height `digitHeight` and the maximum scaled glyph
box height across the sequence — so for orders whose glyphs all have
render scale below 1 it equals the unscaled intrinsic height, not the
tallest scaled box. -/
theorem claim2_canvas_height_amended (images : List String) (displayStr : List Char) :
    maxHeight images displayStr
      = max digitHeight (specCanvasHeight images displayStr) := by
  unfold maxHeight specCanvasHeight
  rw [List.foldl_map]
  exact foldl_fmax_zero _ _ _ (by norm_num [digitHeight])

/-- Claim C8: the glyph assigned to character index `i` is the element
of the glyph sequence at index `i mod length`; in particular a 2-glyph
order `[A, B]` over a 5-character display string assigns
`A, B, A, B, A`. -/
theorem claim8_cyclic_assignment :
    (∀ (images : List String) (s : List Char) (i : Nat), i < s.length →
        (assignedGlyphs images s).getD i "" = images.getD (i % images.length) "")
    ∧ ∀ (A B : String) (s : List Char), s.length = 5 →
        assignedGlyphs [A, B] s = [A, B, A, B, A] := by
  constructor
  · intro images s i hi
    simp [assignedGlyphs, glyphAt, List.getD_eq_getElem?_getD, List.getElem?_map,
      List.getElem?_range, hi]
  · intro A B s hs
    simp only [assignedGlyphs, hs]
    rw [show List.range 5 = [0, 1, 2, 3, 4] from rfl]
    simp [glyphAt]

/-- Witness for C8: a concrete 2-glyph order over a 5-character string. -/
theorem claim8_cyclic_assignment_witness :
    assignedGlyphs ["A", "B"] ['1', '2', '3', '4', '5'] = ["A", "B", "A", "B", "A"] :=
  claim8_cyclic_assignment.2 "A" "B" ['1', '2', '3', '4', '5'] (by decide)

/-- Claim C9: for a fixed glyph order, the computed canvas width is
monotonically non-decreasing in the length of the display string:
extending the display string by one character never shrinks it. -/
theorem claim9_width_monotone (images : List String) (s : List Char) (c : Char)
    (h : images ≠ []) :
    totalWidth images s ≤ totalWidth images (s ++ [c]) := by
  rw [totalWidth_eq, totalWidth_eq]
  have hlen : (s ++ [c]).length = s.length + 1 := by simp
  rw [hlen, List.range_succ, List.map_append, List.sum_append]
  have hbox : 0 ≤ digitWidth * characterScales (glyphAt images s.length) := by
    have hs := characterScales_nonneg (glyphAt images s.length)
    have hw : (0 : ℚ) ≤ digitWidth := by norm_num [digitWidth]
    exact mul_nonneg hw hs
  simp only [List.map_cons, List.map_nil, List.sum_cons, List.sum_nil]
  linarith

/-- Witness for C9 at a concrete one-glyph order. -/
theorem claim9_width_monotone_witness :
    totalWidth ["/assets/stan.png"] [] ≤ totalWidth ["/assets/stan.png"] ([] ++ ['0']) :=
  claim9_width_monotone ["/assets/stan.png"] [] '0' (by decide)

end SouthPark
